import Mathlib

/-!
Shallow embedding of the agent-coordinator core (src/coordinator.py, src/main.py,
src/models.py, src/client_storage.py) and proofs about its routing, synthesis,
client-context and status behaviour.

Conventions:
* Python dicts whose key sets are fixed become structures; dicts used as
  heterogeneous maps (the routing-decision dict, per-agent context dicts)
  become association lists over an inductive value type.
* Python floats become rationals; every `random.*` draw and `uuid` value is an
  explicit parameter (an `Env`), so one run of a method is a pure function of
  the registry, the request and the draws consumed by that run.
* A raised Python exception becomes `Except.error` with a constructor named
  after the exception class.
-/

namespace Coordinator

-- Definitions: the shallow embedding of the source, plus concrete
-- inputs and the spec-side comparison definitions. ------------------

/-- models.py `AgentType` enumeration. -/
inductive AgentType
  | content_research
  | technical_seo
  | project_planning
  | brd_generation
  | social_media
deriving DecidableEq, BEq, Repr

/-- The `.value` of an `AgentType` member (its string payload in models.py). -/
def AgentType.value : AgentType → String
  | .content_research => "content_research"
  | .technical_seo => "technical_seo"
  | .project_planning => "project_planning"
  | .brd_generation => "brd_generation"
  | .social_media => "social_media"

/-- models.py `AgentStatusEnum`. -/
inductive AgentStatusEnum
  | healthy
  | degraded
  | unavailable
  | maintenance
deriving DecidableEq, BEq, Repr

/-- models.py `RequestPriority`. -/
inductive RequestPriority
  | low
  | medium
  | high
  | urgent
deriving DecidableEq, BEq, Repr

/-- One value of the `self.agents` dict in `AgentCoordinator.__init__`
(coordinator.py:37-57).  `last_health_check` (a `datetime.utcnow()` timestamp)
is an abstract tick. -/
structure AgentRec where
  type : AgentType
  status : AgentStatusEnum
  endpoint : String
  last_health_check : Nat
  current_load : Nat
  max_capacity : Nat
  average_response_time : ℚ
deriving DecidableEq, Repr

/-- The `self.agents` dict: an insertion-ordered association list keyed by
agent id (Python dicts preserve insertion order and have unique keys). -/
abbrev Registry := List (String × AgentRec)

/-- The agent pool built in `AgentCoordinator.__init__` (coordinator.py:37-57),
with `now` the `datetime.utcnow()` tick of construction. -/
def initialAgents (now : Nat) : Registry :=
  [("content_research_agent",
    { type := .content_research, status := .healthy,
      endpoint := "http://content-research-agent/api",
      last_health_check := now, current_load := 0, max_capacity := 100,
      average_response_time := mkRat 1 2 }),
   ("technical_seo_agent",
    { type := .technical_seo, status := .healthy,
      endpoint := "http://technical-seo-agent/api",
      last_health_check := now, current_load := 0, max_capacity := 100,
      average_response_time := mkRat 1 2 })]

/-- Equality of `Except` results is decidable when both components are. -/
instance instDecEqExcept {ε α : Type} [DecidableEq ε] [DecidableEq α] :
    DecidableEq (Except ε α) := fun a b =>
  match a, b with
  | Except.error e, Except.error f =>
    if h : e = f then isTrue (congrArg Except.error h)
    else isFalse fun c => h (Except.error.inj c)
  | Except.error _, Except.ok _ => isFalse fun c => Except.noConfusion c
  | Except.ok _, Except.error _ => isFalse fun c => Except.noConfusion c
  | Except.ok x, Except.ok y =>
    if h : x = y then isTrue (congrArg Except.ok h)
    else isFalse fun c => h (Except.ok.inj c)

/-- Python exception classes that may terminate a run.  The last two name
classes from the design taxonomy; the repository defines no such exception
class and no code path constructs them. -/
inductive PyErr
  | indexError
  | keyError (k : String)
  | valueError (msg : String)
  | noEligibleAgentError
  | emptyResponseSetError
deriving DecidableEq, Repr

/-- Model of `random.choice(seq)`: raises `IndexError` on an empty sequence, otherwise
returns `seq[i]` for an RNG-chosen index.  The draw is abstracted by `i`:
every index below the length is reached for some RNG state (`i % len`). -/
def randomChoice {α : Type} (xs : List α) (i : Nat) : Except PyErr α :=
  match xs with
  | [] => .error .indexError
  | y :: ys =>
    .ok ((y :: ys).get ⟨i % (y :: ys).length, Nat.mod_lt _ (Nat.succ_pos ys.length)⟩)

/-- models.py `CoordinationRequest` (the optional free-form `context` map is
never read by the coordinator and is omitted). -/
structure CoordinationRequest where
  query : String
  priority : RequestPriority := .medium
  preferred_agents : Option (List AgentType) := none
  max_response_time : Option Nat := some 30
  require_multi_agent : Option Bool := some false
deriving DecidableEq, Repr

/-- A value stored in the routing-decision dict built at coordinator.py:126.
`num` exists only so the confidence-score claim of the specification is statable;
`_route_request` never produces it. -/
inductive RVal
  | agents (l : List AgentRec)
  | str (s : String)
  | num (q : ℚ)
deriving DecidableEq, Repr

/-- The routing-decision dict (`{"selected_agents": [...], "reasoning": ...}`). -/
abbrev RouteDict := List (String × RVal)

/-- coordinator.py:120-123: ids of agents that are HEALTHY and under capacity,
in registry order. -/
def available_agents (agents : Registry) : List String :=
  (agents.filter fun p =>
    p.2.status == AgentStatusEnum.healthy && decide (p.2.current_load < p.2.max_capacity)).map
    Prod.fst

/-- Model of `AgentCoordinator._route_request` (coordinator.py:115-126).  The `request`
parameter is accepted and never read, exactly as in the source.  `i` is the
RNG draw consumed by `random.choice`.  The `keyError` branch mirrors the dict
indexing `self.agents[selected_agent]`; it is unreachable because the selected
id always comes from the key set of the registry itself. -/
def _route_request (agents : Registry) (request : CoordinationRequest) (i : Nat) :
    Except PyErr RouteDict :=
  match randomChoice (available_agents agents) i with
  | .error e => .error e
  | .ok selected =>
    match agents.lookup selected with
    | none => .error (.keyError selected)
    | some a =>
      .ok [("selected_agents", .agents [a]),
           ("reasoning", .str "Random selection for demo.")]

/-- Model of `routing_decision["selected_agents"]` (coordinator.py:140 and 277).  Every
dict `_route_request` produces carries the key with an agent list; on any
other dict Python would raise, which no claim exercises. -/
def selectedAgentsOf (d : RouteDict) : List AgentRec :=
  match d.lookup "selected_agents" with
  | some (RVal.agents l) => l
  | _ => []

/-- A request with all model defaults, used as concrete input. -/
def demoRequest : CoordinationRequest := { query := "q" }

/-- The registry after `enter_maintenance_mode`-style downing of every agent:
a registry with no eligible agent (used as concrete input). -/
def downRegistry : Registry :=
  (initialAgents 0).map fun p => (p.1, { p.2 with status := AgentStatusEnum.maintenance })

/-- The first agent record of `initialAgents 0`. -/
def agentRecCR : AgentRec :=
  { type := .content_research, status := .healthy,
    endpoint := "http://content-research-agent/api",
    last_health_check := 0, current_load := 0, max_capacity := 100,
    average_response_time := mkRat 1 2 }

/-- The second agent record of `initialAgents 0`. -/
def agentRecTS : AgentRec :=
  { type := .technical_seo, status := .healthy,
    endpoint := "http://technical-seo-agent/api",
    last_health_check := 0, current_load := 0, max_capacity := 100,
    average_response_time := mkRat 1 2 }

/-- Routing decision selecting the content-research agent. -/
def demoRouteDict : RouteDict :=
  [("selected_agents", RVal.agents [agentRecCR]),
   ("reasoning", RVal.str "Random selection for demo.")]

/-- Routing decision selecting the technical-seo agent. -/
def demoRouteDictTS : RouteDict :=
  [("selected_agents", RVal.agents [agentRecTS]),
   ("reasoning", RVal.str "Random selection for demo.")]

/-- The confidence formula of the specification §4.2.  Nothing in the source
computes it (agent records do not even store a success rate); it is defined
here only so the claim can be stated and compared with the code. -/
def specConfidence (success_rates : List ℚ) (eligible_count : Nat) : ℚ :=
  (success_rates.sum / success_rates.length) * min 1 ((eligible_count : ℚ) / 3)

/-- models.py `User`. -/
structure User where
  user_id : String
  email : String
  name : String
  roles : List String
  is_admin : Bool := false
deriving DecidableEq, Repr

/-- models.py `AgentResponse`.  `metadata` is the
`{"client_context_used": ...}` map set only by the client-aware path. -/
structure AgentResponse where
  agent_id : String
  agent_type : AgentType
  response : String
  confidence : ℚ
  processing_time : ℚ
  sources : Option (List String) := none
  metadata : Option (List (String × Bool)) := none
deriving DecidableEq, Repr

/-- The `uuid`/`random` draws one run of `process_request` (or
`process_request_with_client`) consumes: `request_id = str(uuid.uuid4())`,
`choice` the RNG draw of `random.choice`, `times k` the
`random.uniform(0.1, 1.0)` draw for the k-th selected agent,
`total` the `random.uniform(0.1, 3.0)` draw and `quality` the
`random.uniform(0.7, 1.0)` draw. -/
structure Env where
  request_id : String
  choice : Nat
  times : Nat → ℚ
  total : ℚ
  quality : ℚ

/-- Model of `AgentCoordinator._gather_agent_responses` (coordinator.py:128-141):
one simulated response per selected agent. -/
def _gather_agent_responses (d : RouteDict) (times : Nat → ℚ) : List AgentResponse :=
  (selectedAgentsOf d).enum.map fun ka =>
    { agent_id := ka.2.type.value, agent_type := ka.2.type,
      response := "Simulated response", confidence := mkRat 9 10,
      processing_time := times ka.1 }

/-- Model of `AgentCoordinator._synthesize_responses` (coordinator.py:143-148). -/
def _synthesize_responses (rs : List AgentResponse) : String :=
  "Synthesized Response: \n" ++ String.intercalate "\n" (rs.map fun r => r.response)

/-- models.py `CoordinationResponse` (optional `recommendations` and
`next_actions` are never set by the coordinator and are omitted). -/
structure CoordinationResponse where
  request_id : String
  routing_decision : RouteDict
  agent_responses : List AgentResponse
  synthesized_response : String
  total_processing_time : ℚ
  quality_score : ℚ
deriving DecidableEq, Repr

/-- Model of `AgentCoordinator.process_request` (coordinator.py:88-104).  The `user`
parameter is accepted and never read, as in the source. -/
def process_request (agents : Registry) (request : CoordinationRequest)
    (user : User) (env : Env) : Except PyErr CoordinationResponse :=
  match _route_request agents request env.choice with
  | .error e => .error e
  | .ok rd =>
    let ars := _gather_agent_responses rd env.times
    .ok { request_id := env.request_id, routing_decision := rd,
          agent_responses := ars,
          synthesized_response := _synthesize_responses ars,
          total_processing_time := env.total, quality_score := env.quality }

/-- A user used as concrete input. -/
def demoUser : User :=
  { user_id := "u1", email := "u1@example.com", name := "U One", roles := ["user"] }

/-- A draw environment used as concrete input (all draws inside the
documented `random.uniform` ranges). -/
def demoEnv : Env :=
  { request_id := "req-1", choice := 0, times := fun _ => mkRat 1 2,
    total := 1, quality := mkRat 4 5 }

/-- The simulated response of the content-research agent under `demoEnv`. -/
def demoAgentResponse : AgentResponse :=
  { agent_id := "content_research", agent_type := .content_research,
    response := "Simulated response", confidence := mkRat 9 10,
    processing_time := mkRat 1 2 }

/-- The full coordination response of `process_request` on `initialAgents 0`,
`demoRequest`, `demoEnv`. -/
def demoCoordResponse : CoordinationResponse :=
  { request_id := "req-1", routing_decision := demoRouteDict,
    agent_responses := [demoAgentResponse],
    synthesized_response := "Synthesized Response: \nSimulated response",
    total_processing_time := 1, quality_score := mkRat 4 5 }

/-- The raw `brand_guidelines` sub-dict of a client profile, with every key
the coordinator reads (`.get` of a missing key gives `none`). -/
structure BrandGuidelines where
  tone : Option String
  voice : Option String
  avoid_words : Option (List String)
  messaging_pillars : Option (List String)
deriving DecidableEq, Repr

/-- The raw `target_audience` sub-dict of a client profile. -/
structure AudienceRaw where
  primary : Option String
  age_range : Option String
  interests : Option (List String)
deriving DecidableEq, Repr

/-- A raw client profile as `_get_client_context` reads it (the other profile keys, such as `client_id` and `last_updated`, are never read). -/
structure ClientData where
  brand_guidelines : Option BrandGuidelines
  target_audience : Option AudienceRaw
  compliance_requirements : Option (List String)
deriving DecidableEq, Repr

/-- The dict built by `_filter_brand_data` (coordinator.py:344-354). -/
structure BrandVoice where
  tone : Option String
  voice : Option String
  restrictions : List String
  messaging_pillars : List String
deriving DecidableEq, Repr

/-- The nested `demographics` dict of `_filter_audience_data`. -/
structure Demographics where
  age_range : Option String
  interests : List String
deriving DecidableEq, Repr

/-- The dict built by `_filter_audience_data` (coordinator.py:356-367). -/
structure AudienceInfo where
  primary_audience : Option String
  demographics : Demographics
deriving DecidableEq, Repr

/-- models.py `ClientContext` as `_get_client_context` builds it
(`compliance_notes` is always the fetched list, defaulted to `[]`). -/
structure ClientContext where
  client_id : String
  brand_voice : Option BrandVoice
  target_audience : Option AudienceInfo
  compliance_notes : List String
deriving DecidableEq, Repr

/-- The client-storage service boundary (client_storage.py):
`list_client_ids(user_id)` and `get_client_data(client_id)`, abstracted over
backend contents. -/
structure ClientStore where
  list_client_ids : String → List String
  get_client_data : String → Option ClientData

/-- Model of `AgentCoordinator._filter_brand_data` (coordinator.py:344-354).  The Python
`if not brand_data` truthiness check sits on the `Option` (the claims never
exercise the degenerate all-empty-dict case). -/
def _filter_brand_data : Option BrandGuidelines → Option BrandVoice
  | none => none
  | some bd =>
    some { tone := bd.tone, voice := bd.voice,
           restrictions := bd.avoid_words.getD [],
           messaging_pillars := bd.messaging_pillars.getD [] }

/-- Model of `AgentCoordinator._filter_audience_data` (coordinator.py:356-367). -/
def _filter_audience_data : Option AudienceRaw → Option AudienceInfo
  | none => none
  | some ad =>
    some { primary_audience := ad.primary,
           demographics := { age_range := ad.age_range,
                             interests := ad.interests.getD [] } }

/-- Model of `AgentCoordinator._validate_client_access` (coordinator.py:323-335):
membership of the client id in the accessible-client list of the user. -/
def _validate_client_access (store : ClientStore) (user : User)
    (client_id : String) : Bool :=
  decide (client_id ∈ store.list_client_ids user.user_id)

/-- Model of `AgentCoordinator._get_client_context` (coordinator.py:246-267): denied
access or a missing profile gives `none`; otherwise the filtered context. -/
def _get_client_context (store : ClientStore) (client_id : String)
    (user : User) : Option ClientContext :=
  if _validate_client_access store user client_id = false then none
  else
    match store.get_client_data client_id with
    | none => none
    | some cd =>
      some { client_id := client_id,
             brand_voice := _filter_brand_data cd.brand_guidelines,
             target_audience := _filter_audience_data cd.target_audience,
             compliance_notes := cd.compliance_requirements.getD [] }

/-- A Python value appearing in a per-agent context dict
(`_prepare_agent_context` stores `None`, strings, string lists, and the two
filtered sub-dicts). -/
inductive PyVal
  | pynone
  | str (s : String)
  | strList (l : List String)
  | brand (b : BrandVoice)
  | audience (a : AudienceInfo)
deriving DecidableEq, Repr

/-- A per-agent context dict. -/
abbrev AgentCtx := List (String × PyVal)

/-- Model of `AgentCoordinator._prepare_agent_context` (coordinator.py:295-320). -/
def _prepare_agent_context (agent : AgentRec)
    (client_context : Option ClientContext) : AgentCtx :=
  match client_context with
  | none => []
  | some ctx =>
    match agent.type with
    | .content_research =>
      [("brand_voice",
         match ctx.brand_voice with | some b => .brand b | none => .pynone),
       ("target_audience",
         match ctx.target_audience with | some a => .audience a | none => .pynone),
       ("compliance_notes", .strList ctx.compliance_notes)]
    | .technical_seo =>
      [("brand_voice",
         match ctx.brand_voice with
         | some b => match b.tone with | some t => .str t | none => .pynone
         | none => .pynone),
       ("compliance_notes", .strList ctx.compliance_notes)]
    | _ => [("client_id", .str ctx.client_id)]

/-- Rendering of a context value inside the simulated response f-string
(coordinator.py:286); any fixed deterministic rendering is adequate for the
properties below. -/
def pyReprVal : PyVal → String
  | .pynone => "None"
  | .str s => s
  | .strList l => "[" ++ String.intercalate ", " l ++ "]"
  | .brand b => reprStr b
  | .audience a => reprStr a

/-- Rendering of a whole context dict inside the simulated response f-string. -/
def pyReprCtx (ctx : AgentCtx) : String :=
  "\x7b" ++ String.intercalate ", " (ctx.map fun kv => kv.1 ++ ": " ++ pyReprVal kv.2) ++ "\x7d"

/-- Model of `AgentCoordinator._gather_agent_responses_with_context`
(coordinator.py:269-293). -/
def _gather_agent_responses_with_context (d : RouteDict)
    (client_context : Option ClientContext) (times : Nat → ℚ) :
    List AgentResponse :=
  (selectedAgentsOf d).enum.map fun ka =>
    { agent_id := ka.2.type.value, agent_type := ka.2.type,
      response := "Response with context: " ++
        pyReprCtx (_prepare_agent_context ka.2 client_context),
      confidence := mkRat 9 10, processing_time := times ka.1,
      metadata := some [("client_context_used", client_context.isSome)] }

/-- models.py `CoordinationRequestWithClient`. -/
structure CoordinationRequestWithClient extends CoordinationRequest where
  client_id : Option String := none
  use_client_context : Bool := false
deriving DecidableEq, Repr

/-- models.py `CoordinationResponseWithClient`. -/
structure CoordinationResponseWithClient extends CoordinationResponse where
  client_context_used : Bool := false
deriving DecidableEq, Repr

/-- The client-context acquisition of `process_request_with_client`
(coordinator.py:220-222): `if request.use_client_context and
request.client_id`, where an absent or empty-string id is falsy. -/
def requestClientContext (store : ClientStore)
    (request : CoordinationRequestWithClient) (user : User) :
    Option ClientContext :=
  if request.use_client_context then
    match request.client_id with
    | some cid => if cid = "" then none else _get_client_context store cid user
    | none => none
  else none

/-- Model of `AgentCoordinator.process_request_with_client` (coordinator.py:212-244). -/
def process_request_with_client (store : ClientStore) (agents : Registry)
    (request : CoordinationRequestWithClient) (user : User) (env : Env) :
    Except PyErr CoordinationResponseWithClient :=
  let client_context := requestClientContext store request user
  match _route_request agents request.toCoordinationRequest env.choice with
  | .error e => .error e
  | .ok rd =>
    let ars := _gather_agent_responses_with_context rd client_context env.times
    .ok { request_id := env.request_id, routing_decision := rd,
          agent_responses := ars,
          synthesized_response := _synthesize_responses ars,
          total_processing_time := env.total, quality_score := env.quality,
          client_context_used := client_context.isSome }

/-- The `brand_guidelines` of the JSON_FILES placeholder profile
(client_storage.py:165-180). -/
def demoBrandGuidelines : BrandGuidelines :=
  { tone := some "professional", voice := some "authoritative",
    avoid_words := some ["cheap", "discount"],
    messaging_pillars := some ["quality", "reliability", "expertise"] }

/-- The JSON_FILES placeholder profile (client_storage.py:165-180). -/
def demoClientData : ClientData :=
  { brand_guidelines := some demoBrandGuidelines,
    target_audience := some
      { primary := some "SME owners",
        age_range := some "35-55",
        interests := some ["business growth", "efficiency", "digital transformation"] },
    compliance_requirements := some ["FCA compliant", "GDPR compliant"] }

/-- A store mirroring the JSON_FILES placeholder backend. -/
def demoStore : ClientStore :=
  { list_client_ids := fun _ => ["promise_money", "client_2", "client_3"],
    get_client_data := fun _ => some demoClientData }

/-- A store that knows no client and grants no access. -/
def emptyStore : ClientStore :=
  { list_client_ids := fun _ => [], get_client_data := fun _ => none }

/-- The filtered context of the placeholder profile. -/
def demoClientContext : ClientContext :=
  { client_id := "promise_money",
    brand_voice := some
      { tone := some "professional", voice := some "authoritative",
        restrictions := ["cheap", "discount"],
        messaging_pillars := ["quality", "reliability", "expertise"] },
    target_audience := some
      { primary_audience := some "SME owners",
        demographics :=
          { age_range := some "35-55",
            interests := ["business growth", "efficiency", "digital transformation"] } },
    compliance_notes := ["FCA compliant", "GDPR compliant"] }

/-- The per-agent-type whitelist table stated by the specification §4.4,
against which the keys the code emits are compared. -/
def contextWhitelist : AgentType → List String
  | .content_research => ["brand_voice", "target_audience", "compliance_notes"]
  | .technical_seo => ["brand_voice", "compliance_notes"]
  | _ => ["client_id"]

/-- A request asking for client context for client `c9`. -/
def demoClientRequest : CoordinationRequestWithClient :=
  { query := "q", client_id := some "c9", use_client_context := true }

/-- A client-aware request not asking for client context. -/
def demoClientRequestNoCtx : CoordinationRequestWithClient := { query := "q" }

/-- Model of `AgentCoordinator.restart_agent` (coordinator.py:194-202): when the id is
a key, set its status HEALTHY and its load 0 and return success. -/
def restart_agent (agents : Registry) (agent_id : String) : Registry × Bool :=
  if (agents.map Prod.fst).contains agent_id then
    (agents.map fun p =>
      if p.1 = agent_id then
        (p.1, { p.2 with status := AgentStatusEnum.healthy, current_load := 0 })
      else p, true)
  else (agents, false)

/-- Model of `AgentCoordinator.enter_maintenance_mode` (coordinator.py:204-208). -/
def enter_maintenance_mode (agents : Registry) : Registry :=
  agents.map fun p => (p.1, { p.2 with status := AgentStatusEnum.maintenance })

/-- One coordinator operation, as far as the registry state is concerned. -/
inductive Op
  | proc (request : CoordinationRequest) (user : User) (env : Env)
  | procClient (store : ClientStore) (request : CoordinationRequestWithClient)
      (user : User) (env : Env)
  | restart (agent_id : String)
  | maintenance

/-- The registry-state effect of each operation.  `process_request`
(coordinator.py:88-104) and `process_request_with_client`
(coordinator.py:212-244) contain no assignment to `self.agents` — in
particular no load increment — so they leave the registry unchanged; the two
admin operations are the only writers. -/
def applyOp (agents : Registry) : Op → Registry
  | .proc _ _ _ => agents
  | .procClient _ _ _ _ => agents
  | .restart aid => (restart_agent agents aid).1
  | .maintenance => enter_maintenance_mode agents

/-- Running a sequence of coordinator operations from a registry. -/
def runOps (agents : Registry) (ops : List Op) : Registry :=
  ops.foldl applyOp agents

/-- A nontrivial operation sequence used as concrete input. -/
def demoOps : List Op := [Op.restart "content_research_agent", Op.maintenance]

/-- The content-research record after `demoOps`. -/
def agentRecCRMaint : AgentRec := { agentRecCR with status := .maintenance }

/-- models.py `AgentStatus`.  `success_rate` is a fresh
`random.uniform(0.8, 1.0)` draw per call, passed in as `sr`. -/
structure AgentStatus where
  agent_id : String
  agent_type : AgentType
  status : AgentStatusEnum
  last_health_check : Nat
  current_load : Nat
  max_capacity : Nat
  average_response_time : ℚ
  success_rate : ℚ
  version : String
  endpoint_url : String
deriving DecidableEq, Repr

/-- Model of `AgentCoordinator._get_agent_status` (coordinator.py:150-169): raises
`ValueError("Agent not found")` when the id is not a key. -/
def _get_agent_status (agents : Registry) (agent_id : String) (sr : ℚ) :
    Except PyErr AgentStatus :=
  match agents.lookup agent_id with
  | none => .error (.valueError "Agent not found")
  | some a =>
    .ok { agent_id := agent_id, agent_type := a.type, status := a.status,
          last_health_check := a.last_health_check,
          current_load := a.current_load, max_capacity := a.max_capacity,
          average_response_time := a.average_response_time,
          success_rate := sr, version := "1.0.0", endpoint_url := a.endpoint }

/-- Model of `AgentCoordinator.get_agent_status` (coordinator.py:106-113): one status
when an id is given, else the statuses of every agent. -/
def get_agent_status (agents : Registry) (agent_id : Option String) (sr : ℚ) :
    Except PyErr (List AgentStatus) :=
  match agent_id with
  | some aid => (_get_agent_status agents aid sr).map fun s => [s]
  | none => (agents.map Prod.fst).mapM fun aid => _get_agent_status agents aid sr

/-- The HTTP status code of `GET /agents/{agent_id}/status`
(main.py:198-207 with the handlers at main.py:245-264): an exception raised
by the coordinator reaches the registered generic `Exception` handler, which
answers 500; the 404 branch of the endpoint fires only on a falsy (empty)
returned list, which `get_agent_status` never produces. -/
def get_specific_agent_status_http (agents : Registry) (agent_id : String)
    (sr : ℚ) : Nat :=
  match get_agent_status agents (some agent_id) sr with
  | .error _ => 500
  | .ok statuses => if statuses.isEmpty then 404 else 200

-- Theorems. ---------------------------------------------------------

/-- A nonempty list gives `randomChoice` a successful pick that is a member. -/
theorem randomChoice_ok_mem {α : Type} (xs : List α) (i : Nat) (h : xs ≠ []) :
    ∃ a, randomChoice xs i = Except.ok a ∧ a ∈ xs := by
  match xs, h with
  | y :: ys, _ => exact ⟨_, rfl, List.get_mem _ _ _⟩

/-- Every available id is a key of the registry. -/
theorem available_sub_keys (agents : Registry) :
    available_agents agents ⊆ agents.map Prod.fst := by
  intro a ha
  unfold available_agents at ha
  simp only [List.mem_map] at ha ⊢
  obtain ⟨p, hp, rfl⟩ := ha
  exact ⟨p, List.mem_of_mem_filter hp, rfl⟩

/-- Looking up a key that occurs in an association list succeeds. -/
theorem lookup_of_mem_keys {agents : Registry} {aid : String}
    (h : aid ∈ agents.map Prod.fst) : ∃ a, agents.lookup aid = some a := by
  induction agents with
  | nil => simp at h
  | cons p ps ih =>
    by_cases hk : aid = p.1
    · have hb : (aid == p.1) = true := beq_iff_eq.mpr hk
      exact ⟨p.2, by simp [List.lookup, hb]⟩
    · have hb : (aid == p.1) = false := beq_eq_false_iff_ne.mpr hk
      have hm : aid ∈ ps.map Prod.fst := by
        simp only [List.map_cons, List.mem_cons] at h
        exact h.resolve_left hk
      obtain ⟨a, ha⟩ := ih hm
      exact ⟨a, by simp [List.lookup, hb, ha]⟩

/-- With no eligible agent, `_route_request` propagates the `IndexError`
raised by `random.choice([])`. -/
theorem route_err_of_nil (agents : Registry) (request : CoordinationRequest) (i : Nat)
    (h : available_agents agents = []) :
    _route_request agents request i = Except.error PyErr.indexError := by
  unfold _route_request
  rw [h]
  rfl

/-- With at least one eligible agent, `_route_request` returns a decision dict. -/
theorem route_ok_of_ne_nil (agents : Registry) (request : CoordinationRequest) (i : Nat)
    (h : available_agents agents ≠ []) :
    ∃ d, _route_request agents request i = Except.ok d := by
  obtain ⟨sel, hsel, hmem⟩ := randomChoice_ok_mem _ i h
  obtain ⟨a, ha⟩ := lookup_of_mem_keys (available_sub_keys agents hmem)
  exact ⟨[("selected_agents", RVal.agents [a]),
          ("reasoning", RVal.str "Random selection for demo.")],
    by simp [_route_request, hsel, ha]⟩

/-- C1: FALSIFIED ON THE CODE (the specification itself marks the randomness in the source as a bug).  On the identical registry snapshot and identical
request, two RNG draws of `random.choice` make `_route_request` return two
different routing decisions — routing is not deterministic, and no
load-ratio / response-time / lexical policy is applied. -/
theorem route_request_nondeterministic :
    _route_request (initialAgents 0) demoRequest 0 = Except.ok demoRouteDict ∧
    _route_request (initialAgents 0) demoRequest 1 = Except.ok demoRouteDictTS ∧
    demoRouteDict ≠ demoRouteDictTS ∧
    selectedAgentsOf demoRouteDict ≠ selectedAgentsOf demoRouteDictTS := by
  decide

/-- C2 counterexample: with an empty eligible set the code fails with
`IndexError` (from `random.choice` on the empty list), not with
`NoEligibleAgentError` as claimed. -/
theorem route_request_empty_raises_indexError :
    available_agents downRegistry = [] ∧
    _route_request downRegistry demoRequest 0 = Except.error PyErr.indexError ∧
    _route_request downRegistry demoRequest 0 ≠ Except.error PyErr.noEligibleAgentError := by
  decide

/-- C2 amended: routing returns a routing-decision dict whenever the eligible
set (HEALTHY and under capacity) is nonempty, and fails — with `IndexError`,
the only failure the source can raise here — exactly when it is empty. -/
theorem route_request_total (agents : Registry) (request : CoordinationRequest) (i : Nat) :
    (available_agents agents = [] →
      _route_request agents request i = Except.error PyErr.indexError) ∧
    (available_agents agents ≠ [] →
      ∃ d, _route_request agents request i = Except.ok d) := by
  exact ⟨route_err_of_nil agents request i, route_ok_of_ne_nil agents request i⟩

/-- Witness for `route_request_total` at concrete inputs. -/
theorem route_request_total_witness :
    (∃ d, _route_request (initialAgents 0) demoRequest 0 = Except.ok d) ∧
    _route_request downRegistry demoRequest 0 = Except.error PyErr.indexError :=
  ⟨(route_request_total (initialAgents 0) demoRequest 0).2 (by decide),
   (route_request_total downRegistry demoRequest 0).1 (by decide)⟩

/-- C7 counterexample: the routing decision the code produces carries no
confidence entry at all, so its confidence cannot equal
`specConfidence` (or anything else). -/
theorem route_decision_no_confidence_cx :
    _route_request (initialAgents 0) demoRequest 0 = Except.ok demoRouteDict ∧
    demoRouteDict.lookup "confidence" = none ∧
    demoRouteDict.map Prod.fst = ["selected_agents", "reasoning"] := by
  decide

/-- C7 amended: every routing decision the code produces has exactly the keys
`selected_agents` and `reasoning`; no confidence score is computed. -/
theorem route_decision_keys (agents : Registry) (request : CoordinationRequest)
    (i : Nat) (d : RouteDict) (h : _route_request agents request i = Except.ok d) :
    d.map Prod.fst = ["selected_agents", "reasoning"] ∧
    d.lookup "confidence" = none := by
  unfold _route_request at h
  split at h
  · cases h
  · split at h
    · cases h
    · cases h
      exact ⟨rfl, rfl⟩

/-- Witness for `route_decision_keys` at a concrete input. -/
theorem route_decision_keys_witness :
    demoRouteDict.map Prod.fst = ["selected_agents", "reasoning"] ∧
    demoRouteDict.lookup "confidence" = none :=
  route_decision_keys (initialAgents 0) demoRequest 0 demoRouteDict (by decide)

/-- Successful runs of `process_request` are exactly the successful routings,
with the response fields as built at coordinator.py:97-104. -/
theorem process_request_ok_shape (agents : Registry) (request : CoordinationRequest)
    (user : User) (env : Env) (resp : CoordinationResponse)
    (h : process_request agents request user env = Except.ok resp) :
    ∃ d, _route_request agents request env.choice = Except.ok d ∧
      resp = { request_id := env.request_id, routing_decision := d,
               agent_responses := _gather_agent_responses d env.times,
               synthesized_response :=
                 _synthesize_responses (_gather_agent_responses d env.times),
               total_processing_time := env.total, quality_score := env.quality } := by
  unfold process_request at h
  cases hd : _route_request agents request env.choice with
  | error e => rw [hd] at h; cases h
  | ok d =>
    rw [hd] at h
    cases h
    exact ⟨d, rfl, rfl⟩

/-- C3 counterexample: `_synthesize_responses([])` returns the bare header
string — it raises nothing (the repository defines no `EmptyResponseSetError`)
— and in a run whose single gathered response has confidence 9/10, the
quality score of the response is the independent `random.uniform(0.7, 1.0)` draw
(here 4/5), not the confidence of the response. -/
theorem synthesize_empty_and_quality_cx :
    _synthesize_responses [] = "Synthesized Response: \n" ∧
    (process_request (initialAgents 0) demoRequest demoUser demoEnv).map
      (fun r => r.quality_score) = Except.ok (mkRat 4 5) ∧
    (process_request (initialAgents 0) demoRequest demoUser demoEnv).map
      (fun r => r.agent_responses.map fun a => a.confidence) =
      Except.ok [mkRat 9 10] ∧
    mkRat 4 5 ≠ mkRat 9 10 := by
  decide

/-- C3 amended: synthesis never fails; on `[]` it returns exactly the header
`"Synthesized Response: \n"`, on `[r]` it returns the header followed by
`r.response` (so the text contains `r.response`), and the quality score of
any successful run equals the `random.uniform(0.7, 1.0)` draw of the run — it is
unrelated to `r.confidence`. -/
theorem synthesize_behavior (r : AgentResponse) (agents : Registry)
    (request : CoordinationRequest) (user : User) (env : Env)
    (resp : CoordinationResponse)
    (h : process_request agents request user env = Except.ok resp) :
    _synthesize_responses [] = "Synthesized Response: \n" ∧
    _synthesize_responses [r] = "Synthesized Response: \n" ++ r.response ∧
    resp.quality_score = env.quality := by
  obtain ⟨d, -, rfl⟩ := process_request_ok_shape agents request user env resp h
  exact ⟨rfl, rfl, rfl⟩

/-- Witness for `synthesize_behavior` at concrete inputs. -/
theorem synthesize_behavior_witness :
    _synthesize_responses [] = "Synthesized Response: \n" ∧
    _synthesize_responses [demoAgentResponse] =
      "Synthesized Response: \n" ++ demoAgentResponse.response ∧
    demoCoordResponse.quality_score = demoEnv.quality :=
  synthesize_behavior demoAgentResponse (initialAgents 0) demoRequest demoUser
    demoEnv demoCoordResponse (by decide)

/-- With `use_client_context` false or no client id, no client context is
acquired (the storage service is never consulted). -/
theorem requestClientContext_none (store : ClientStore)
    (request : CoordinationRequestWithClient) (user : User)
    (h : request.use_client_context = false ∨ request.client_id = none) :
    requestClientContext store request user = none := by
  unfold requestClientContext
  rcases h with h | h
  · rw [h]
    simp
  · rw [h]
    cases request.use_client_context <;> simp

/-- A successful routing determines the whole client-aware response. -/
theorem process_with_client_eq (store : ClientStore) (agents : Registry)
    (request : CoordinationRequestWithClient) (user : User) (env : Env)
    (d : RouteDict)
    (hd : _route_request agents request.toCoordinationRequest env.choice = Except.ok d) :
    process_request_with_client store agents request user env =
      Except.ok
        { request_id := env.request_id, routing_decision := d,
          agent_responses := _gather_agent_responses_with_context d
            (requestClientContext store request user) env.times,
          synthesized_response := _synthesize_responses
            (_gather_agent_responses_with_context d
              (requestClientContext store request user) env.times),
          total_processing_time := env.total, quality_score := env.quality,
          client_context_used := (requestClientContext store request user).isSome } := by
  unfold process_request_with_client
  rw [hd]

/-- A failed routing is the failure of the whole client-aware run. -/
theorem process_with_client_err (store : ClientStore) (agents : Registry)
    (request : CoordinationRequestWithClient) (user : User) (env : Env)
    (e : PyErr)
    (hd : _route_request agents request.toCoordinationRequest env.choice = Except.error e) :
    process_request_with_client store agents request user env = Except.error e := by
  unfold process_request_with_client
  rw [hd]

/-- C4: for every agent and client context, the per-agent projection emits
only keys of the whitelist of that agent type (content-research: brand_voice,
target_audience, compliance_notes; technical-seo: brand_voice,
compliance_notes; any other type: client_id), and a null client context
projects to the empty map. -/
theorem prepare_agent_context_whitelist (agent : AgentRec)
    (client_context : Option ClientContext) :
    ((_prepare_agent_context agent client_context).map Prod.fst ⊆
      contextWhitelist agent.type) ∧
    (client_context = none → _prepare_agent_context agent client_context = []) := by
  constructor
  · cases client_context with
    | none => simp [_prepare_agent_context]
    | some ctx =>
      obtain ⟨ty, st, ep, lh, cl, mc, art⟩ := agent
      cases ty <;> simp [_prepare_agent_context, contextWhitelist]
  · rintro rfl
    rfl

/-- Witness for `prepare_agent_context_whitelist` at concrete inputs. -/
theorem prepare_agent_context_whitelist_witness :
    "brand_voice" ∈ contextWhitelist AgentType.technical_seo ∧
    _prepare_agent_context agentRecCR none = [] :=
  ⟨(prepare_agent_context_whitelist agentRecTS (some demoClientContext)).1
      (by decide),
   (prepare_agent_context_whitelist agentRecCR none).2 rfl⟩

/-- C5: when the requested client id is absent from the accessible
set of the user, context resolution fails closed (`none`) and the request still completes
(given at least one eligible agent) with `client_context_used = false`. -/
theorem client_access_denied_fail_closed (store : ClientStore)
    (agents : Registry) (request : CoordinationRequestWithClient) (user : User)
    (env : Env) (cid : String)
    (hdeny : cid ∉ store.list_client_ids user.user_id)
    (hcid : request.client_id = some cid)
    (helig : available_agents agents ≠ []) :
    _get_client_context store cid user = none ∧
    ∃ resp, process_request_with_client store agents request user env =
        Except.ok resp ∧ resp.client_context_used = false := by
  have hv : _validate_client_access store user cid = false := by
    simp [_validate_client_access, hdeny]
  have hgcc : _get_client_context store cid user = none := by
    simp [_get_client_context, hv]
  have hnone : requestClientContext store request user = none := by
    unfold requestClientContext
    cases request.use_client_context
    · simp
    · rw [hcid]
      by_cases hemp : cid = "" <;> simp [hemp, hgcc]
  obtain ⟨d, hd⟩ := route_ok_of_ne_nil agents request.toCoordinationRequest env.choice helig
  refine ⟨hgcc, ⟨_, process_with_client_eq store agents request user env d hd, ?_⟩⟩
  simp [hnone]

/-- Witness for `client_access_denied_fail_closed` at concrete inputs. -/
theorem client_access_denied_fail_closed_witness :
    _get_client_context emptyStore "c9" demoUser = none ∧
    ∃ resp, process_request_with_client emptyStore (initialAgents 0)
        demoClientRequest demoUser demoEnv = Except.ok resp ∧
      resp.client_context_used = false :=
  client_access_denied_fail_closed emptyStore (initialAgents 0)
    demoClientRequest demoUser demoEnv "c9" (by decide) rfl (by decide)

/-- C8: when the client id is in the access list of the user and the profile
exists with brand tone "professional", the technical-seo projection is
exactly `brand_voice = "professional"` plus the compliance notes of the profile,
and carries no `target_audience` key. -/
theorem technical_seo_projection (store : ClientStore) (user : User)
    (cid : String) (cd : ClientData) (bg : BrandGuidelines) (agent : AgentRec)
    (hacc : cid ∈ store.list_client_ids user.user_id)
    (hdata : store.get_client_data cid = some cd)
    (hbg : cd.brand_guidelines = some bg)
    (htone : bg.tone = some "professional")
    (htype : agent.type = AgentType.technical_seo) :
    _prepare_agent_context agent (_get_client_context store cid user) =
      [("brand_voice", PyVal.str "professional"),
       ("compliance_notes", PyVal.strList (cd.compliance_requirements.getD []))] ∧
    (_prepare_agent_context agent
      (_get_client_context store cid user)).lookup "target_audience" = none := by
  have hv : _validate_client_access store user cid = true := by
    simp [_validate_client_access, hacc]
  have h1 : _prepare_agent_context agent (_get_client_context store cid user) =
      [("brand_voice", PyVal.str "professional"),
       ("compliance_notes", PyVal.strList (cd.compliance_requirements.getD []))] := by
    simp [_get_client_context, hv, hdata, _prepare_agent_context, htype, hbg,
      _filter_brand_data, htone]
  rw [h1]
  exact ⟨rfl, rfl⟩

/-- Witness for `technical_seo_projection` at concrete inputs. -/
theorem technical_seo_projection_witness :
    _prepare_agent_context agentRecTS
        (_get_client_context demoStore "promise_money" demoUser) =
      [("brand_voice", PyVal.str "professional"),
       ("compliance_notes",
        PyVal.strList (demoClientData.compliance_requirements.getD []))] ∧
    (_prepare_agent_context agentRecTS
      (_get_client_context demoStore "promise_money" demoUser)).lookup
      "target_audience" = none :=
  technical_seo_projection demoStore demoUser "promise_money" demoClientData
    demoBrandGuidelines agentRecTS (by decide) rfl (by decide) rfl rfl

/-- C10: when `use_client_context` is false or no client id is given, the run
acquires no client context and is a function of the registry, request, user
and draws alone: two runs that differ only in the contents of the client store
return identical responses, and any successful run reports
`client_context_used = false`. -/
theorem no_client_context_store_independent (store1 store2 : ClientStore)
    (agents : Registry) (request : CoordinationRequestWithClient) (user : User)
    (env : Env)
    (h : request.use_client_context = false ∨ request.client_id = none) :
    process_request_with_client store1 agents request user env =
      process_request_with_client store2 agents request user env ∧
    requestClientContext store1 request user = none ∧
    ∀ resp, process_request_with_client store1 agents request user env =
        Except.ok resp → resp.client_context_used = false := by
  have h1 := requestClientContext_none store1 request user h
  have h2 := requestClientContext_none store2 request user h
  refine ⟨?_, h1, ?_⟩
  · unfold process_request_with_client
    rw [h1, h2]
  · intro resp hresp
    cases hd : _route_request agents request.toCoordinationRequest env.choice with
    | error e =>
      rw [process_with_client_err store1 agents request user env e hd] at hresp
      cases hresp
    | ok d =>
      rw [process_with_client_eq store1 agents request user env d hd] at hresp
      cases hresp
      simp [h1]

/-- Witness for `no_client_context_store_independent` at concrete inputs. -/
theorem no_client_context_store_independent_witness :
    process_request_with_client demoStore (initialAgents 0)
        demoClientRequestNoCtx demoUser demoEnv =
      process_request_with_client emptyStore (initialAgents 0)
        demoClientRequestNoCtx demoUser demoEnv ∧
    requestClientContext demoStore demoClientRequestNoCtx demoUser = none :=
  ⟨(no_client_context_store_independent demoStore emptyStore (initialAgents 0)
      demoClientRequestNoCtx demoUser demoEnv (Or.inl rfl)).1,
   (no_client_context_store_independent demoStore emptyStore (initialAgents 0)
      demoClientRequestNoCtx demoUser demoEnv (Or.inl rfl)).2.1⟩

/-- Every single operation preserves the load-within-capacity bound. -/
theorem applyOp_load_le (agents : Registry) (op : Op)
    (h : ∀ p ∈ agents, p.2.current_load ≤ p.2.max_capacity) :
    ∀ p ∈ applyOp agents op, p.2.current_load ≤ p.2.max_capacity := by
  cases op with
  | proc request user env => exact h
  | procClient store request user env => exact h
  | restart aid =>
    intro p hp
    simp only [applyOp] at hp
    unfold restart_agent at hp
    by_cases hc : (agents.map Prod.fst).contains aid = true
    · rw [if_pos hc] at hp
      have hp2 : p ∈ agents.map fun q =>
          if q.1 = aid then
            (q.1, { q.2 with status := AgentStatusEnum.healthy, current_load := 0 })
          else q := hp
      rw [List.mem_map] at hp2
      obtain ⟨q, hq, hqp⟩ := hp2
      by_cases hqa : q.1 = aid
      · rw [if_pos hqa] at hqp
        subst hqp
        exact Nat.zero_le _
      · rw [if_neg hqa] at hqp
        subst hqp
        exact h q hq
    · rw [if_neg hc] at hp
      exact h p hp
  | maintenance =>
    intro p hp
    simp only [applyOp] at hp
    unfold enter_maintenance_mode at hp
    rw [List.mem_map] at hp
    obtain ⟨q, hq, hqp⟩ := hp
    subst hqp
    exact h q hq

/-- C6 counterexample: processing a request from the initial pool selects the
content-research agent, yet leaves the registry — and so the `current_load` of that
agent — unchanged at 0, not incremented to 1. -/
theorem process_no_load_increment_cx :
    applyOp (initialAgents 0) (Op.proc demoRequest demoUser demoEnv) = initialAgents 0 ∧
    _route_request (initialAgents 0) demoRequest demoEnv.choice = Except.ok demoRouteDict ∧
    (selectedAgentsOf demoRouteDict).map (fun a => a.current_load) = [0] ∧
    ((applyOp (initialAgents 0) (Op.proc demoRequest demoUser demoEnv)).lookup
        "content_research_agent").map (fun a => a.current_load) = some 0 ∧
    some (0 : Nat) ≠ some (0 + 1) :=
  ⟨rfl, by decide, by decide, by decide, by decide⟩

/-- C6 amended: the selection step performs no load increment at all —
request processing leaves the `current_load` of every agent unchanged — and under
every sequence of coordinator operations no agent load ever exceeds the
capacity when it does not initially. -/
theorem loads_never_exceed (agents : Registry) (ops : List Op)
    (hinit : ∀ p ∈ agents, p.2.current_load ≤ p.2.max_capacity) :
    (∀ request user env, applyOp agents (Op.proc request user env) = agents) ∧
    (∀ p ∈ runOps agents ops, p.2.current_load ≤ p.2.max_capacity) := by
  refine ⟨fun _ _ _ => rfl, ?_⟩
  induction ops generalizing agents with
  | nil => exact hinit
  | cons op ops ih => exact ih _ (applyOp_load_le agents op hinit)

/-- Witness for `loads_never_exceed` at concrete inputs. -/
theorem loads_never_exceed_witness :
    applyOp (initialAgents 0) (Op.proc demoRequest demoUser demoEnv) = initialAgents 0 ∧
    agentRecCRMaint.current_load ≤ agentRecCRMaint.max_capacity :=
  ⟨(loads_never_exceed (initialAgents 0) demoOps (by decide)).1
      demoRequest demoUser demoEnv,
   (loads_never_exceed (initialAgents 0) demoOps (by decide)).2
      ("content_research_agent", agentRecCRMaint) (by decide)⟩

/-- C9: for an id absent from the registry, the coordinator raises
`ValueError("Agent not found")` — not the claimed `NotFound` — and the
endpoint surfaces HTTP 500 through the generic exception handler, not 404:
the 404 branch of the endpoint is unreachable. -/
theorem unknown_agent_status_http_500 :
    (initialAgents 0).lookup "ghost_agent" = none ∧
    get_agent_status (initialAgents 0) (some "ghost_agent") (mkRat 9 10) =
      Except.error (PyErr.valueError "Agent not found") ∧
    get_specific_agent_status_http (initialAgents 0) "ghost_agent" (mkRat 9 10) = 500 ∧
    (500 : Nat) ≠ 404 := by
  decide

end Coordinator
